import Mathlib

/-!
Shallow embedding of the atlas-server subscription reconciliation core
(index.js): the Stripe webhook dispatch, the checkout-completion handler
(handleSubscriptionCreated), the cancellation handler
(handleSubscriptionCancelled) and the wallet subscription-status query.

Database rows are modelled as Lean structures, the two tables as lists,
timestamps as integers (milliseconds since the Unix epoch, matching the
JavaScript Date numeric value). External effects (the Stripe subscription
lookup, possible insert failures) are passed in explicitly. Transactional
semantics: a handler that fails returns the database unchanged, which is
exactly what BEGIN/ROLLBACK guarantees for the committed state.
-/

namespace AtlasServer

/-- JavaScript truthiness of an optional string: undefined/null and the
empty string are falsy, mirroring the `if (!walletAddress)` checks. -/
def jsTruthy : Option String → Bool
  | none => false
  | some s => !(s == "")

/-- A JavaScript numeric field that may be absent or NaN, as read off
`stripeSubscription.current_period_end` (seconds since epoch). -/
inductive JsNum
  | missing
  | nan
  | num (n : Int)
deriving Repr, DecidableEq

/-- `session.customer_details` of a Stripe checkout session. -/
structure CustomerDetails where
  email : String
  metadata_wallet_address : Option String
deriving Repr, DecidableEq

/-- The checkout session object delivered in a
checkout.session.completed event. -/
structure Session where
  id : String
  subscription : String
  metadata_wallet_address : Option String
  customer_details : Option CustomerDetails
deriving Repr, DecidableEq

/-- The full subscription object fetched from Stripe with
stripe.subscriptions.retrieve. -/
structure StripeSubscription where
  id : String
  customer : String
  status : String
  metadata_wallet_address : Option String
  current_period_end : JsNum
deriving Repr, DecidableEq

/-- One row of the subscriptions table. -/
structure SubRow where
  id : Nat
  stripe_customer_id : String
  stripe_subscription_id : String
  stripe_session_id : String
  customer_email : String
  status : String
  current_period_end : Option Int
  created_at : Int
  updated_at : Int
deriving Repr, DecidableEq

/-- One row of the subscription_wallets table. -/
structure WalletRow where
  id : Nat
  subscription_id : Nat
  wallet_address : String
  is_primary : Bool
  created_at : Int
deriving Repr, DecidableEq

/-- The database state: both tables plus the SERIAL id counters. -/
structure DB where
  subscriptions : List SubRow
  subscription_wallets : List WalletRow
  nextSubId : Nat
  nextWalletId : Nat
deriving Repr, DecidableEq

/-- Wallet resolution chain of handleSubscriptionCreated (index.js lines
108 to 114): subscription metadata, then session metadata, then session
customer-details metadata; a falsy (absent or empty) value falls through. -/
def resolveWalletAddress (stripeSubscription : StripeSubscription)
    (session : Session) : Option String :=
  let w1 := stripeSubscription.metadata_wallet_address
  let w2 := if jsTruthy w1 then w1 else session.metadata_wallet_address
  if jsTruthy w2 then w2
  else session.customer_details.bind (fun cd => cd.metadata_wallet_address)

/-- Milliseconds in one day. -/
def msPerDay : Int := 86400000

/-- Billing period end computation of index.js lines 123 to 132: a truthy,
non-NaN numeric current_period_end (seconds) is converted to milliseconds;
otherwise the fallback is now plus 30 days. -/
def computePeriodEnd (current_period_end : JsNum) (now : Int) : Int :=
  match current_period_end with
  | JsNum.num n => if n ≠ 0 then n * 1000 else now + 30 * msPerDay
  | _ => now + 30 * msPerDay

/-- The failure modes of reconciliation: the Stripe lookup failing, the
missing-wallet throw at line 119, the TypeError when customer_details is
null at line 148, and a failing INSERT. -/
inductive ReconcileError
  | providerLookupFailed
  | missingWallet
  | nullCustomerDetails
  | persistenceError
deriving Repr, DecidableEq

/-- handleSubscriptionCreated (index.js lines 97 to 177). The Stripe
lookup result and whether each INSERT fails are explicit inputs. On any
failure the transaction rolls back, so the returned database is the input
database; on success one subscriptions row and one subscription_wallets
row (marked primary) are committed and the new internal id is returned. -/
def handleSubscriptionCreated (db : DB) (session : Session)
    (provider : Option StripeSubscription)
    (subscriptionInsertFails walletInsertFails : Bool) (now : Int) :
    Except ReconcileError Nat × DB :=
  match provider with
  | none => (Except.error ReconcileError.providerLookupFailed, db)
  | some stripeSubscription =>
    let walletAddress := resolveWalletAddress stripeSubscription session
    if jsTruthy walletAddress then
      match session.customer_details with
      | none => (Except.error ReconcileError.nullCustomerDetails, db)
      | some cd =>
        if subscriptionInsertFails then
          (Except.error ReconcileError.persistenceError, db)
        else
          let periodEndDate := computePeriodEnd stripeSubscription.current_period_end now
          let newSub : SubRow :=
            { id := db.nextSubId
              stripe_customer_id := stripeSubscription.customer
              stripe_subscription_id := stripeSubscription.id
              stripe_session_id := session.id
              customer_email := cd.email
              status := stripeSubscription.status
              current_period_end := some periodEndDate
              created_at := now
              updated_at := now }
          if walletInsertFails then
            (Except.error ReconcileError.persistenceError, db)
          else
            let newWallet : WalletRow :=
              { id := db.nextWalletId
                subscription_id := newSub.id
                wallet_address := walletAddress.getD ""
                is_primary := true
                created_at := now }
            (Except.ok newSub.id,
              { subscriptions := db.subscriptions ++ [newSub]
                subscription_wallets := db.subscription_wallets ++ [newWallet]
                nextSubId := db.nextSubId + 1
                nextWalletId := db.nextWalletId + 1 })
    else
      (Except.error ReconcileError.missingWallet, db)

/-- Row transformation of the UPDATE in handleSubscriptionCancelled: a row
whose stripe_subscription_id matches gets status cancelled and a fresh
updated_at; every other row is untouched. -/
def cancelRow (subscription_id : String) (now : Int) (r : SubRow) : SubRow :=
  if r.stripe_subscription_id = subscription_id then
    { r with status := "cancelled", updated_at := now }
  else r

/-- handleSubscriptionCancelled (index.js lines 180 to 193): UPDATE
subscriptions SET status, updated_at WHERE stripe_subscription_id matches.
The UPDATE touches every matching row and errors on none matching is not
possible: zero affected rows is still success. -/
def handleSubscriptionCancelled (db : DB) (subscription_id : String)
    (now : Int) : DB :=
  { db with
    subscriptions := db.subscriptions.map (cancelRow subscription_id now) }

/-- The JavaScript Date numeric value of a nullable stored timestamp:
new Date(null) is the Unix epoch, so an absent period end reads as 0. -/
def jsDateOfTimestamp : Option Int → Int
  | none => 0
  | some t => t

/-- A subscriptions row is joined to the given wallet through some
subscription_wallets row (the INNER JOIN of the status query). -/
def walletLinked (db : DB) (walletAddress : String) (s : SubRow) : Bool :=
  db.subscription_wallets.any
    (fun sw => sw.subscription_id == s.id && sw.wallet_address == walletAddress)

/-- All subscriptions rows joined to the wallet, any status. -/
def matchingRows (db : DB) (walletAddress : String) : List SubRow :=
  db.subscriptions.filter (fun s => walletLinked db walletAddress s)

/-- The WHERE clause of the status query: joined to the wallet and with
stored status active. -/
def matchingActiveRows (db : DB) (walletAddress : String) : List SubRow :=
  db.subscriptions.filter
    (fun s => s.status == "active" && walletLinked db walletAddress s)

/-- ORDER BY created_at DESC LIMIT 1 over the WHERE result: the row with
the greatest created_at, if any. -/
def queryLatestActive (db : DB) (walletAddress : String) : Option SubRow :=
  (matchingActiveRows db walletAddress).argmax (fun s => s.created_at)

/-- The JSON body answered by GET /api/subscription-status. -/
structure StatusJson where
  hasSubscription : Bool
  status : String
  expiresAt : Option Int
  customerEmail : Option String
deriving Repr, DecidableEq

/-- The status endpoint (index.js lines 201 to 244): fetch the most
recently created active row joined to the wallet, then compare its stored
period end against the current clock; entitlement is reported only on a
strictly future period end. -/
def subscriptionStatus (db : DB) (walletAddress : String) (now : Int) :
    StatusJson :=
  match queryLatestActive db walletAddress with
  | some subscription =>
    if jsDateOfTimestamp subscription.current_period_end > now then
      { hasSubscription := true
        status := "active"
        expiresAt := subscription.current_period_end
        customerEmail := some subscription.customer_email }
    else
      { hasSubscription := false, status := "expired"
        expiresAt := none, customerEmail := none }
  | none =>
    { hasSubscription := false, status := "none"
      expiresAt := none, customerEmail := none }

/-- The events the webhook switch distinguishes (index.js lines 78 to 91). -/
inductive StripeEvent
  | checkoutSessionCompleted (session : Session)
  | customerSubscriptionDeleted (subscription_id : String)
  | otherEvent (eventType : String)
deriving Repr, DecidableEq

/-- The HTTP outcome the webhook route produces when it answers at all. -/
structure HttpResponse where
  statusCode : Nat
  receivedTrue : Bool
deriving Repr, DecidableEq

/-- POST /stripe-webhook (index.js lines 65 to 94): signature failure
answers 400; a handled event that succeeds answers 200 with received true;
an unrecognized event type is acknowledged with 200. A thrown reconciliation
error propagates out of the route uncaught, so no success response is
produced: that is the Except.error outcome. -/
def stripeWebhook (db : DB) (signatureValid : Bool) (event : StripeEvent)
    (provider : Option StripeSubscription)
    (subscriptionInsertFails walletInsertFails : Bool) (now : Int) :
    Except ReconcileError HttpResponse × DB :=
  if signatureValid then
    match event with
    | StripeEvent.checkoutSessionCompleted session =>
      match handleSubscriptionCreated db session provider
          subscriptionInsertFails walletInsertFails now with
      | (Except.error e, db2) => (Except.error e, db2)
      | (Except.ok _, db2) => (Except.ok ⟨200, true⟩, db2)
    | StripeEvent.customerSubscriptionDeleted sid =>
      (Except.ok ⟨200, true⟩, handleSubscriptionCancelled db sid now)
    | StripeEvent.otherEvent _ => (Except.ok ⟨200, true⟩, db)
  else
    (Except.ok ⟨400, false⟩, db)

/-! ### Concrete fixtures used by witnesses -/

/-- A checkout session like the worked example of the spec. -/
def sessEx : Session :=
  { id := "cs_1", subscription := "sub_1"
    metadata_wallet_address := none
    customer_details := some { email := "a@b.com", metadata_wallet_address := none } }

/-- The fetched Stripe subscription of the worked example. -/
def ssubEx : StripeSubscription :=
  { id := "sub_1", customer := "cus_1", status := "active"
    metadata_wallet_address := some "0xABC"
    current_period_end := JsNum.num 1700000000 }

/-- An empty database with fresh id counters. -/
def dbEx : DB :=
  { subscriptions := [], subscription_wallets := [], nextSubId := 1, nextWalletId := 1 }

/-- A stored subscriptions row for sub_1. -/
def rowEx : SubRow :=
  { id := 1, stripe_customer_id := "cus_1", stripe_subscription_id := "sub_1"
    stripe_session_id := "cs_1", customer_email := "a@b.com", status := "active"
    current_period_end := some 1000, created_at := 0, updated_at := 0 }

/-- A wallet link row tying row 1 to wallet 0xABC. -/
def walletRowEx : WalletRow :=
  { id := 1, subscription_id := 1, wallet_address := "0xABC"
    is_primary := true, created_at := 0 }

/-- A database holding exactly rowEx. -/
def dbEx2 : DB :=
  { subscriptions := [rowEx], subscription_wallets := [walletRowEx]
    nextSubId := 2, nextWalletId := 2 }

/-- rowEx with a period end of 100 ms, already past at now = 200. -/
def rowExpiredEx : SubRow :=
  { rowEx with current_period_end := some 100 }

/-- A database whose only subscription, linked to 0xABC, is active but expired. -/
def dbEx3 : DB :=
  { subscriptions := [rowExpiredEx], subscription_wallets := [walletRowEx]
    nextSubId := 2, nextWalletId := 2 }

/-- rowEx with a NULL period end. -/
def rowNullEx : SubRow :=
  { rowEx with current_period_end := none }

/-- A database whose only subscription, linked to 0xABC, has a NULL period end. -/
def dbEx4 : DB :=
  { subscriptions := [rowNullEx], subscription_wallets := [walletRowEx]
    nextSubId := 2, nextWalletId := 2 }

/-! ### Claim theorems -/

/-- C3: wallet resolution consults subscription-level metadata, then
session-level metadata, then session customer-details metadata, in that
fixed order; the first truthy (present, non-empty) value determines the
result regardless of what the later sources hold, so when the
subscription-level and session-level addresses differ the
subscription-level one is chosen. -/
theorem C3_wallet_resolution_priority (stripeSubscription : StripeSubscription)
    (session : Session) :
    (jsTruthy stripeSubscription.metadata_wallet_address = true →
      resolveWalletAddress stripeSubscription session
        = stripeSubscription.metadata_wallet_address) ∧
    (jsTruthy stripeSubscription.metadata_wallet_address = false →
      jsTruthy session.metadata_wallet_address = true →
      resolveWalletAddress stripeSubscription session
        = session.metadata_wallet_address) ∧
    (jsTruthy stripeSubscription.metadata_wallet_address = false →
      jsTruthy session.metadata_wallet_address = false →
      resolveWalletAddress stripeSubscription session
        = session.customer_details.bind (fun cd => cd.metadata_wallet_address)) := by
  refine ⟨fun h1 => ?_, fun h1 h2 => ?_, fun h1 h2 => ?_⟩
  · simp [resolveWalletAddress, h1]
  · simp [resolveWalletAddress, h1, h2]
  · simp [resolveWalletAddress, h1, h2]

/-- Witness for C3: subscription metadata 0xABC wins over a session
carrying a different address 0xDEF. -/
theorem C3_wallet_resolution_priority_witness :
    resolveWalletAddress ssubEx
        { sessEx with metadata_wallet_address := some "0xDEF" }
      = some "0xABC" :=
  (C3_wallet_resolution_priority ssubEx
    { sessEx with metadata_wallet_address := some "0xDEF" }).1 (by decide)

/-- C4: when the fetched subscription and the session carry no truthy
wallet address in any of the three resolution locations, reconciliation
fails with the missing-wallet error and the database is returned
unchanged, so no subscriptions row and no subscription_wallets row is
created. -/
theorem C4_missing_wallet_aborts (db : DB) (session : Session)
    (stripeSubscription : StripeSubscription)
    (subscriptionInsertFails walletInsertFails : Bool) (now : Int)
    (h1 : jsTruthy stripeSubscription.metadata_wallet_address = false)
    (h2 : jsTruthy session.metadata_wallet_address = false)
    (h3 : jsTruthy (session.customer_details.bind
      (fun cd => cd.metadata_wallet_address)) = false) :
    handleSubscriptionCreated db session (some stripeSubscription)
        subscriptionInsertFails walletInsertFails now
      = (Except.error ReconcileError.missingWallet, db) := by
  simp [handleSubscriptionCreated, resolveWalletAddress, h1, h2, h3]

/-- Witness for C4: an event with no wallet anywhere aborts and leaves the
empty database empty. -/
theorem C4_missing_wallet_aborts_witness :
    handleSubscriptionCreated dbEx sessEx
        (some { ssubEx with metadata_wallet_address := none }) false false 0
      = (Except.error ReconcileError.missingWallet, dbEx) :=
  C4_missing_wallet_aborts dbEx sessEx
    { ssubEx with metadata_wallet_address := none } false false 0
    (by decide) (by decide) (by decide)

/-- C6: a cancellation event whose external subscription identifier
matches no stored row succeeds and leaves the database exactly as it
was: no row is created or altered. -/
theorem C6_cancel_unknown_noop (db : DB) (subscription_id : String) (now : Int)
    (h : ∀ r ∈ db.subscriptions, r.stripe_subscription_id ≠ subscription_id) :
    handleSubscriptionCancelled db subscription_id now = db := by
  unfold handleSubscriptionCancelled
  have hmap : db.subscriptions.map (cancelRow subscription_id now)
      = db.subscriptions := by
    rw [List.map_congr_left (g := fun r => r)
      (fun r hr => by simp [cancelRow, h r hr])]
    exact List.map_id _
  rw [hmap]

/-- Witness for C6: cancelling an unknown identifier leaves dbEx2 intact. -/
theorem C6_cancel_unknown_noop_witness :
    handleSubscriptionCancelled dbEx2 "sub_999" 7 = dbEx2 :=
  C6_cancel_unknown_noop dbEx2 "sub_999" 7 (by decide)

/-- C9: the cancellation UPDATE leaves the wallet table and the id
counters untouched, rewrites the subscriptions table by a per-row map (so
every row whose stripe_subscription_id matches is updated, not only the
most recent one), and that map changes exactly the status and updated_at
columns of matching rows while leaving non-matching rows identical. -/
theorem C9_cancel_frame (db : DB) (subscription_id : String) (now : Int) :
    (handleSubscriptionCancelled db subscription_id now).subscription_wallets
        = db.subscription_wallets ∧
    (handleSubscriptionCancelled db subscription_id now).nextSubId
        = db.nextSubId ∧
    (handleSubscriptionCancelled db subscription_id now).nextWalletId
        = db.nextWalletId ∧
    (handleSubscriptionCancelled db subscription_id now).subscriptions
        = db.subscriptions.map (cancelRow subscription_id now) ∧
    (∀ r : SubRow, r.stripe_subscription_id = subscription_id →
      cancelRow subscription_id now r
        = { r with status := "cancelled", updated_at := now }) ∧
    (∀ r : SubRow, r.stripe_subscription_id ≠ subscription_id →
      cancelRow subscription_id now r = r) := by
  refine ⟨rfl, rfl, rfl, rfl, fun r hr => ?_, fun r hr => ?_⟩
  · simp [cancelRow, hr]
  · simp [cancelRow, hr]

/-- Witness for C9: the matching row rowEx gets only its status and
updated_at rewritten, and a non-matching identifier leaves it unchanged. -/
theorem C9_cancel_frame_witness :
    cancelRow "sub_1" 5 rowEx = { rowEx with status := "cancelled", updated_at := 5 } ∧
    cancelRow "sub_2" 5 rowEx = rowEx :=
  ⟨(C9_cancel_frame dbEx2 "sub_1" 5).2.2.2.2.1 rowEx (by decide),
   (C9_cancel_frame dbEx2 "sub_2" 5).2.2.2.2.2 rowEx (by decide)⟩

/-- Applying the cancellation row transformation twice with the same
timestamp is the same as applying it once. -/
theorem cancelRow_idem (subscription_id : String) (now : Int) (r : SubRow) :
    cancelRow subscription_id now (cancelRow subscription_id now r)
      = cancelRow subscription_id now r := by
  by_cases h : r.stripe_subscription_id = subscription_id <;>
    simp [cancelRow, h]

/-- C5: a stored active row whose external identifier matches the
cancellation event ends up with status cancelled, the redelivered event
finds the row still matching and leaves its status cancelled, and
processing the identical event twice yields the same database as
processing it once (no error is possible: the UPDATE is total). -/
theorem C5_cancel_sets_cancelled_idempotent (db : DB) (subscription_id : String)
    (now now2 : Int) (r : SubRow) (hr : r ∈ db.subscriptions)
    (hid : r.stripe_subscription_id = subscription_id)
    (_hact : r.status = "active") :
    cancelRow subscription_id now r
        ∈ (handleSubscriptionCancelled db subscription_id now).subscriptions ∧
    (cancelRow subscription_id now r).status = "cancelled" ∧
    cancelRow subscription_id now2 (cancelRow subscription_id now r)
        ∈ (handleSubscriptionCancelled
            (handleSubscriptionCancelled db subscription_id now)
            subscription_id now2).subscriptions ∧
    (cancelRow subscription_id now2 (cancelRow subscription_id now r)).status
        = "cancelled" ∧
    handleSubscriptionCancelled
        (handleSubscriptionCancelled db subscription_id now) subscription_id now
      = handleSubscriptionCancelled db subscription_id now := by
  refine ⟨List.mem_map_of_mem _ hr, by simp [cancelRow, hid],
    List.mem_map_of_mem _ (List.mem_map_of_mem _ hr), ?_, ?_⟩
  · simp [cancelRow, hid]
  · unfold handleSubscriptionCancelled
    simp [List.map_map, Function.comp_def, cancelRow_idem]

/-- Witness for C5: cancelling sub_1 in dbEx2 marks rowEx cancelled and a
second identical delivery changes nothing further. -/
theorem C5_cancel_sets_cancelled_idempotent_witness :
    (cancelRow "sub_1" 5 rowEx).status = "cancelled" ∧
    handleSubscriptionCancelled (handleSubscriptionCancelled dbEx2 "sub_1" 5) "sub_1" 5
      = handleSubscriptionCancelled dbEx2 "sub_1" 5 := by
  have h := C5_cancel_sets_cancelled_idempotent dbEx2 "sub_1" 5 7 rowEx
    (by decide) (by decide) (by decide)
  exact ⟨h.2.1, h.2.2.2.2⟩

/-- Structural form of a successful reconciliation: the committed state
appends exactly one subscriptions row and one wallet link row, built from
the session, the fetched subscription, the resolved wallet and the
computed period end, and the returned identifier is the fresh serial. -/
theorem handleSubscriptionCreated_ok (db : DB) (session : Session)
    (stripeSubscription : StripeSubscription)
    (subscriptionInsertFails walletInsertFails : Bool) (now : Int)
    (sid : Nat) (db2 : DB)
    (h : handleSubscriptionCreated db session (some stripeSubscription)
        subscriptionInsertFails walletInsertFails now = (Except.ok sid, db2)) :
    ∃ cd, session.customer_details = some cd ∧
      sid = db.nextSubId ∧
      db2 = { subscriptions := db.subscriptions ++
                [{ id := db.nextSubId
                   stripe_customer_id := stripeSubscription.customer
                   stripe_subscription_id := stripeSubscription.id
                   stripe_session_id := session.id
                   customer_email := cd.email
                   status := stripeSubscription.status
                   current_period_end :=
                     some (computePeriodEnd stripeSubscription.current_period_end now)
                   created_at := now, updated_at := now }]
              subscription_wallets := db.subscription_wallets ++
                [{ id := db.nextWalletId
                   subscription_id := db.nextSubId
                   wallet_address :=
                     (resolveWalletAddress stripeSubscription session).getD ""
                   is_primary := true, created_at := now }]
              nextSubId := db.nextSubId + 1
              nextWalletId := db.nextWalletId + 1 } := by
  by_cases hw : jsTruthy (resolveWalletAddress stripeSubscription session)
  · cases hcd : session.customer_details with
    | none => simp [handleSubscriptionCreated, hw, hcd] at h
    | some cd =>
      cases hsf : subscriptionInsertFails with
      | true => simp [handleSubscriptionCreated, hw, hcd, hsf] at h
      | false =>
        cases hwf : walletInsertFails with
        | true => simp [handleSubscriptionCreated, hw, hcd, hsf, hwf] at h
        | false =>
          refine ⟨cd, rfl, ?_, ?_⟩ <;>
            simp [handleSubscriptionCreated, hw, hcd, hsf, hwf] at h
          · exact h.1.symm
          · exact h.2.symm
  · simp [handleSubscriptionCreated, hw] at h

/-- Structural form of a failed reconciliation: whatever the failure, the
returned database is the input database, i.e. the transaction left no
partial state behind. -/
theorem handleSubscriptionCreated_error (db : DB) (session : Session)
    (provider : Option StripeSubscription)
    (subscriptionInsertFails walletInsertFails : Bool) (now : Int)
    (e : ReconcileError) (db2 : DB)
    (h : handleSubscriptionCreated db session provider
        subscriptionInsertFails walletInsertFails now = (Except.error e, db2)) :
    db2 = db := by
  cases provider with
  | none =>
    simp [handleSubscriptionCreated] at h
    exact h.2.symm
  | some ss =>
    by_cases hw : jsTruthy (resolveWalletAddress ss session)
    · cases hcd : session.customer_details with
      | none =>
        simp [handleSubscriptionCreated, hw, hcd] at h
        exact h.2.symm
      | some cd =>
        cases hsf : subscriptionInsertFails with
        | true =>
          simp [handleSubscriptionCreated, hw, hcd, hsf] at h
          exact h.2.symm
        | false =>
          cases hwf : walletInsertFails with
          | true =>
            simp [handleSubscriptionCreated, hw, hcd, hsf, hwf] at h
            exact h.2.symm
          | false =>
            simp [handleSubscriptionCreated, hw, hcd, hsf, hwf] at h
    · simp [handleSubscriptionCreated, hw] at h
      exact h.2.symm

/-- C1: a successful reconciliation commits exactly one new subscriptions
row and exactly one new wallet link row, the link points at the new row,
it is marked primary, and the returned identifier is the new internal id;
a failed reconciliation commits nothing at all. -/
theorem C1_create_transactional (db : DB) (session : Session)
    (provider : Option StripeSubscription)
    (subscriptionInsertFails walletInsertFails : Bool) (now : Int) :
    (∀ sid db2,
      handleSubscriptionCreated db session provider
          subscriptionInsertFails walletInsertFails now = (Except.ok sid, db2) →
      ∃ newSub newWallet,
        db2.subscriptions = db.subscriptions ++ [newSub] ∧
        db2.subscription_wallets = db.subscription_wallets ++ [newWallet] ∧
        newSub.id = sid ∧
        newWallet.subscription_id = sid ∧
        newWallet.is_primary = true) ∧
    (∀ e db2,
      handleSubscriptionCreated db session provider
          subscriptionInsertFails walletInsertFails now = (Except.error e, db2) →
      db2 = db) := by
  constructor
  · intro sid db2 h
    cases provider with
    | none => simp [handleSubscriptionCreated] at h
    | some ss =>
      obtain ⟨cd, hcd, hsid, hdb2⟩ :=
        handleSubscriptionCreated_ok db session ss
          subscriptionInsertFails walletInsertFails now sid db2 h
      subst hdb2
      exact ⟨_, _, rfl, rfl, hsid.symm, hsid.symm, rfl⟩
  · intro e db2 h
    exact handleSubscriptionCreated_error db session provider
      subscriptionInsertFails walletInsertFails now e db2 h

/-- Witness for C1: the worked example grows each table by one row, and
the same event with a failing wallet insert leaves the database exactly
dbEx. -/
theorem C1_create_transactional_witness :
    ((handleSubscriptionCreated dbEx sessEx (some ssubEx) false false 0).2).subscriptions.length
        = dbEx.subscriptions.length + 1 ∧
    ((handleSubscriptionCreated dbEx sessEx (some ssubEx) false false 0).2).subscription_wallets.length
        = dbEx.subscription_wallets.length + 1 ∧
    (handleSubscriptionCreated dbEx sessEx (some ssubEx) false true 0).2 = dbEx := by
  refine ⟨?_, ?_,
    (C1_create_transactional dbEx sessEx (some ssubEx) false true 0).2
      ReconcileError.persistenceError _ rfl⟩ <;>
  · obtain ⟨ns, nw, h1, h2, -⟩ :=
      (C1_create_transactional dbEx sessEx (some ssubEx) false false 0).1 1
        ((handleSubscriptionCreated dbEx sessEx (some ssubEx) false false 0).2) rfl
    simp [h1, h2]

/-- C7: a successful reconciliation stores the computed period end on the
new row, and that computation converts a truthy numeric provider
timestamp from seconds to milliseconds while an absent or NaN timestamp
falls back to now plus 30 days, so the stored record always carries an
expiry. -/
theorem C7_period_end_stored (db : DB) (session : Session)
    (stripeSubscription : StripeSubscription)
    (subscriptionInsertFails walletInsertFails : Bool) (now : Int)
    (sid : Nat) (db2 : DB)
    (h : handleSubscriptionCreated db session (some stripeSubscription)
        subscriptionInsertFails walletInsertFails now = (Except.ok sid, db2)) :
    (db2.subscriptions.getLast?).map SubRow.current_period_end
        = some (some (computePeriodEnd stripeSubscription.current_period_end now)) ∧
    (∀ n : Int, n ≠ 0 → computePeriodEnd (JsNum.num n) now = n * 1000) ∧
    computePeriodEnd JsNum.missing now = now + 30 * msPerDay ∧
    computePeriodEnd JsNum.nan now = now + 30 * msPerDay := by
  obtain ⟨cd, hcd, hsid, hdb2⟩ :=
    handleSubscriptionCreated_ok db session stripeSubscription
      subscriptionInsertFails walletInsertFails now sid db2 h
  subst hdb2
  refine ⟨by simp [List.getLast?_concat], fun n hn => ?_, rfl, rfl⟩
  simp [computePeriodEnd, hn]

/-- Witness for C7: the worked example stores 1700000000 seconds as
milliseconds, and the fallback at now = 0 is 30 days. -/
theorem C7_period_end_stored_witness :
    ((handleSubscriptionCreated dbEx sessEx (some ssubEx) false false 0).2.subscriptions.getLast?).map
        SubRow.current_period_end = some (some (1700000000 * 1000)) ∧
    computePeriodEnd JsNum.missing 0 = 0 + 30 * msPerDay := by
  have h := C7_period_end_stored dbEx sessEx ssubEx false false 0 1
    ((handleSubscriptionCreated dbEx sessEx (some ssubEx) false false 0).2) rfl
  exact ⟨h.1, h.2.2.1⟩

/-- C8: when reconciliation of a verified checkout-completion event fails,
the webhook route does not produce the success acknowledgement: the error
propagates out as the outcome, and no HTTP response (in particular not
200 with received true) is returned, so the provider redelivers. -/
theorem C8_failure_not_acknowledged (db : DB) (session : Session)
    (provider : Option StripeSubscription)
    (subscriptionInsertFails walletInsertFails : Bool) (now : Int)
    (e : ReconcileError) (db2 : DB)
    (h : handleSubscriptionCreated db session provider
        subscriptionInsertFails walletInsertFails now = (Except.error e, db2)) :
    (stripeWebhook db true (StripeEvent.checkoutSessionCompleted session)
        provider subscriptionInsertFails walletInsertFails now).1
      = Except.error e ∧
    ∀ resp : HttpResponse,
      (stripeWebhook db true (StripeEvent.checkoutSessionCompleted session)
          provider subscriptionInsertFails walletInsertFails now).1
        ≠ Except.ok resp := by
  constructor
  · simp [stripeWebhook, h]
  · intro resp
    simp [stripeWebhook, h]

/-- Witness for C8: a failing provider lookup surfaces as an error from
the webhook route instead of a received acknowledgement. -/
theorem C8_failure_not_acknowledged_witness :
    (stripeWebhook dbEx true (StripeEvent.checkoutSessionCompleted sessEx)
        none false false 0).1
      = Except.error ReconcileError.providerLookupFailed :=
  (C8_failure_not_acknowledged dbEx sessEx none false false 0
    ReconcileError.providerLookupFailed dbEx rfl).1

/-- ORDER BY created_at DESC LIMIT 1 returns the strictly most recently
created row of the candidate set when there is one. -/
theorem argmax_eq_of_strict_latest {l : List SubRow} {s : SubRow}
    (hmem : s ∈ l)
    (hlatest : ∀ t ∈ l, t ≠ s → t.created_at < s.created_at) :
    l.argmax (fun r => r.created_at) = some s := by
  cases harg : l.argmax (fun r => r.created_at) with
  | none =>
    rw [List.argmax_eq_none] at harg
    subst harg
    simp at hmem
  | some m =>
    have hm : m ∈ l := List.argmax_mem (Option.mem_def.mpr harg)
    by_cases hms : m = s
    · rw [hms]
    · have h1 : m.created_at < s.created_at := hlatest m hm hms
      have h2 : s.created_at ≤ m.created_at :=
        List.le_of_mem_argmax hmem (Option.mem_def.mpr harg)
      omega

/-- C2: when the strictly most recently created row joined to the wallet
has stored status active but a period end at or before the query clock,
the status endpoint answers hasSubscription false with status expired:
the stale stored status is never reported as entitlement without the
expiry recomputation. -/
theorem C2_expired_not_entitled (db : DB) (walletAddress : String)
    (now : Int) (s : SubRow)
    (hmem : s ∈ matchingRows db walletAddress)
    (hact : s.status = "active")
    (hlatest : ∀ t ∈ matchingRows db walletAddress,
      t ≠ s → t.created_at < s.created_at)
    (hexp : jsDateOfTimestamp s.current_period_end ≤ now) :
    subscriptionStatus db walletAddress now
      = { hasSubscription := false, status := "expired"
          expiresAt := none, customerEmail := none } := by
  have hsub : ∀ t ∈ matchingActiveRows db walletAddress,
      t ∈ matchingRows db walletAddress := by
    intro t ht
    rw [matchingActiveRows, List.mem_filter] at ht
    rw [matchingRows, List.mem_filter]
    refine ⟨ht.1, ?_⟩
    have := ht.2
    simp only [Bool.and_eq_true] at this
    exact this.2
  have hmem2 : s ∈ matchingActiveRows db walletAddress := by
    rw [matchingRows, List.mem_filter] at hmem
    rw [matchingActiveRows, List.mem_filter]
    refine ⟨hmem.1, ?_⟩
    simp only [Bool.and_eq_true, beq_iff_eq]
    exact ⟨hact, hmem.2⟩
  have harg : queryLatestActive db walletAddress = some s :=
    argmax_eq_of_strict_latest hmem2 (fun t ht => hlatest t (hsub t ht))
  rw [subscriptionStatus, harg]
  simp only
  rw [if_neg]
  omega

/-- Witness for C2: the only subscription of dbEx3 is active in storage
with period end 100, yet at clock 200 the endpoint answers expired. -/
theorem C2_expired_not_entitled_witness :
    subscriptionStatus dbEx3 "0xABC" 200
      = { hasSubscription := false, status := "expired"
          expiresAt := none, customerEmail := none } :=
  C2_expired_not_entitled dbEx3 "0xABC" 200 rowExpiredEx
    (by decide) (by decide) (by decide) (by decide)

/-- C10: entitlement is a strict comparison: the selected row yields
hasSubscription true exactly when its stored period end is strictly
later than the query clock; a period end equal to the clock, or a NULL
period end (which reads as the epoch, so never future for a nonnegative
clock), is answered as expired. -/
theorem C10_strict_expiry (db : DB) (walletAddress : String) (now : Int)
    (s : SubRow) (h : queryLatestActive db walletAddress = some s) :
    ((subscriptionStatus db walletAddress now).hasSubscription = true
        ↔ now < jsDateOfTimestamp s.current_period_end) ∧
    (s.current_period_end = some now →
      subscriptionStatus db walletAddress now
        = { hasSubscription := false, status := "expired"
            expiresAt := none, customerEmail := none }) ∧
    (s.current_period_end = none → 0 ≤ now →
      subscriptionStatus db walletAddress now
        = { hasSubscription := false, status := "expired"
            expiresAt := none, customerEmail := none }) := by
  refine ⟨?_, fun hpe => ?_, fun hpe hnow => ?_⟩
  · by_cases hc : now < jsDateOfTimestamp s.current_period_end <;>
      simp [subscriptionStatus, h, hc]
  · rw [subscriptionStatus, h]
    simp only [hpe]
    rw [if_neg]
    simp [jsDateOfTimestamp]
  · rw [subscriptionStatus, h]
    simp only [hpe]
    rw [if_neg]
    simp only [jsDateOfTimestamp]
    omega

/-- Witness for C10: in dbEx3 the row expires at 100, so clock 50 is
entitled and clock 100 (equality) is expired; in dbEx4 the NULL period
end is expired at clock 0. -/
theorem C10_strict_expiry_witness :
    (subscriptionStatus dbEx3 "0xABC" 50).hasSubscription = true ∧
    subscriptionStatus dbEx3 "0xABC" 100
      = { hasSubscription := false, status := "expired"
          expiresAt := none, customerEmail := none } ∧
    subscriptionStatus dbEx4 "0xABC" 0
      = { hasSubscription := false, status := "expired"
          expiresAt := none, customerEmail := none } := by
  refine ⟨(C10_strict_expiry dbEx3 "0xABC" 50 rowExpiredEx (by decide)).1.mpr
      (by decide),
    (C10_strict_expiry dbEx3 "0xABC" 100 rowExpiredEx (by decide)).2.1 rfl,
    (C10_strict_expiry dbEx4 "0xABC" 0 rowNullEx (by decide)).2.2 rfl (by decide)⟩

end AtlasServer
